import Mathlib

/-!
Verification of the Monte Carlo retirement projection and tax engine of
`pan-rps`.  The engine (`RetirementModel` and its vectorized tax helpers)
is exercised by `tests/test_services/test_retirement_model.py` and called
from `src/routes/analysis.py`; the tax tables and formulas below are a
shallow embedding over `ℚ` (arrays of per-path values are modelled one
element at a time, since every vectorized function is element-wise).
-/

/-- Filing statuses handled by the tax tables (`'mfj'` / `'single'`). -/
inductive FilingStatus
  | mfj
  | single
deriving DecidableEq, Repr

/-!
## Progressive federal tax

Modelled from the spec: 2024-equivalent stepped bracket tables
(10/12/22/24/32/35/37%); MFJ thresholds 23,200 / 94,300 / 201,050 /
383,900 / 487,450 / 731,200, with the usual single thresholds.  The
function returns the tax and the marginal rate of the bracket that holds
the top dollar of income; zero or negative income is floored at zero.
`retirement_model.py` itself is not present in the repository, only its
tests and callers, so the function is reconstructed from the spec and the
values pinned by `TestProgressiveFederalTax`.
-/

/-- Bracket upper bounds for a filing status, lowest bracket first. -/
def fedBracketTops (fs : FilingStatus) : ℚ × ℚ × ℚ × ℚ × ℚ × ℚ :=
  match fs with
  | .mfj => (23200, 94300, 201050, 383900, 487450, 731200)
  | .single => (11600, 47150, 100525, 191950, 243725, 609350)

/-- Modelled from the spec: `_vectorized_federal_tax` (element-wise), the
progressive federal tax and marginal rate for one income value. -/
def federalTax (fs : FilingStatus) (income : ℚ) : ℚ × ℚ :=
  let (b1, b2, b3, b4, b5, b6) := fedBracketTops fs
  let inc := max 0 income
  let tax :=
    (10/100) * min inc b1
    + (12/100) * max 0 (min inc b2 - b1)
    + (22/100) * max 0 (min inc b3 - b2)
    + (24/100) * max 0 (min inc b4 - b3)
    + (32/100) * max 0 (min inc b5 - b4)
    + (35/100) * max 0 (min inc b6 - b5)
    + (37/100) * max 0 (inc - b6)
  let marginal :=
    if inc ≤ b1 then 10/100
    else if inc ≤ b2 then 12/100
    else if inc ≤ b3 then 22/100
    else if inc ≤ b4 then 24/100
    else if inc ≤ b5 then 32/100
    else if inc ≤ b6 then 35/100
    else 37/100
  (tax, marginal)

/-- C4: for every ordinary income in the lowest MFJ federal bracket
(0 ≤ income ≤ $23,200), the progressive federal tax is `income * 0.10`
with marginal rate 0.10; an $800,000 MFJ income has marginal rate 0.37;
and zero or negative income yields a tax floored at zero. -/
theorem C4_federal_tax_lowest_bracket :
    (∀ income : ℚ, 0 ≤ income → income ≤ 23200 →
      (federalTax .mfj income).1 = income * (10/100)
        ∧ (federalTax .mfj income).2 = 10/100)
    ∧ (federalTax .mfj 800000).2 = 37/100
    ∧ (∀ income : ℚ, income ≤ 0 → (federalTax .mfj income).1 = 0) := by
  refine ⟨fun income h0 h1 => ?_, by norm_num [federalTax, fedBracketTops], ?_⟩
  · have hmax : max 0 income = income := max_eq_right h0
    constructor
    · simp only [federalTax, fedBracketTops, hmax]
      rw [min_eq_left h1,
        min_eq_left (by linarith : income ≤ (94300 : ℚ)),
        min_eq_left (by linarith : income ≤ (201050 : ℚ)),
        min_eq_left (by linarith : income ≤ (383900 : ℚ)),
        min_eq_left (by linarith : income ≤ (487450 : ℚ)),
        min_eq_left (by linarith : income ≤ (731200 : ℚ)),
        max_eq_left (by linarith), max_eq_left (by linarith),
        max_eq_left (by linarith), max_eq_left (by linarith),
        max_eq_left (by linarith), max_eq_left (by linarith)]
      ring
    · simp only [federalTax, fedBracketTops, hmax]
      rw [if_pos h1]
  · intro income h
    have hmax : max 0 income = 0 := max_eq_left h
    simp only [federalTax, fedBracketTops, hmax]
    norm_num

/-- Closed-form witness for `C4_federal_tax_lowest_bracket` at income
$20,000 (as in `test_low_income_10_percent_bracket`) and at $-5,000. -/
theorem C4_federal_tax_lowest_bracket_witness :
    (federalTax .mfj 20000).1 = 20000 * (10/100)
      ∧ (federalTax .mfj 20000).2 = 10/100
      ∧ (federalTax .mfj (-5000)).1 = 0 := by
  refine ⟨(C4_federal_tax_lowest_bracket.1 20000 (by norm_num) (by norm_num)).1,
    (C4_federal_tax_lowest_bracket.1 20000 (by norm_num) (by norm_num)).2,
    C4_federal_tax_lowest_bracket.2.2 (-5000) (by norm_num)⟩

/-!
## Long-term capital gains tax with ordinary-income stacking

Modelled from the spec: gains stack on top of ordinary income across the
0%/15%/20% brackets (MFJ threshold values 94,050 and 583,750 pinned by
`TestLongTermCapitalGainsTax`; standard single thresholds).  The gains
dollars that land between the two thresholds are taxed at 15%, the
dollars above the second threshold at 20%, the rest at 0%.
-/

/-- LTCG 0%→15% and 15%→20% thresholds per filing status. -/
def ltcgThresholds (fs : FilingStatus) : ℚ × ℚ :=
  match fs with
  | .mfj => (94050, 583750)
  | .single => (47025, 518900)

/-- Modelled from the spec: `_vectorized_ltcg_tax` (element-wise), the
tax on long-term gains stacked on top of one ordinary-income value. -/
def ltcgTax (fs : FilingStatus) (gains ordinary : ℚ) : ℚ :=
  let (t0, t1) := ltcgThresholds fs
  (15/100) * max 0 (min (ordinary + gains) t1 - max ordinary t0)
    + (20/100) * max 0 (ordinary + gains - max ordinary t1)

/-- The portion of `g` stacked on `i` that clears the threshold `t`. -/
def gainsAbove (t g i : ℚ) : ℚ := max 0 (i + g - max i t)

/-- `gainsAbove t g` is monotone in the ordinary income `i`. -/
lemma gainsAbove_mono {t g i j : ℚ} (hg : 0 ≤ g) (hij : i ≤ j) :
    gainsAbove t g i ≤ gainsAbove t g j := by
  unfold gainsAbove
  rcases le_total i t with h1 | h1 <;> rcases le_total j t with h2 | h2 <;>
    simp only [max_def] <;> split_ifs <;> linarith

/-- Stacked LTCG tax as a combination of threshold-clearing portions. -/
lemma ltcgTax_eq_gainsAbove (fs : FilingStatus) {g : ℚ} (hg : 0 ≤ g) (i : ℚ) :
    ltcgTax fs g i =
      (15/100) * gainsAbove (ltcgThresholds fs).1 g i
        + (5/100) * gainsAbove (ltcgThresholds fs).2 g i := by
  have key : ∀ t0 t1 : ℚ, t0 ≤ t1 →
      (15/100) * max 0 (min (i + g) t1 - max i t0)
          + (20/100) * max 0 (i + g - max i t1)
        = (15/100) * max 0 (i + g - max i t0)
          + (5/100) * max 0 (i + g - max i t1) := by
    intro t0 t1 ht
    simp only [max_def, min_def]
    split_ifs <;> linarith
  cases fs
  · simpa [ltcgTax, gainsAbove, ltcgThresholds] using
      key 94050 583750 (by norm_num)
  · simpa [ltcgTax, gainsAbove, ltcgThresholds] using
      key 47025 518900 (by norm_num)

/-- C3: the long-term capital gains tax is monotonic non-decreasing in
ordinary income for fixed gains, for every filing status: gains stack on
top of ordinary income across the 0%/15%/20% brackets, so a higher
ordinary income can only push gains dollars into a higher bracket. -/
theorem C3_ltcg_monotone_in_ordinary_income
    (fs : FilingStatus) (g iLow iHigh : ℚ) (hg : 0 ≤ g) (h : iLow ≤ iHigh) :
    ltcgTax fs g iLow ≤ ltcgTax fs g iHigh := by
  rw [ltcgTax_eq_gainsAbove fs hg, ltcgTax_eq_gainsAbove fs hg]
  have h1 := gainsAbove_mono (t := (ltcgThresholds fs).1) hg h
  have h2 := gainsAbove_mono (t := (ltcgThresholds fs).2) hg h
  nlinarith [h1, h2]

/-- Closed-form witness for `C3_ltcg_monotone_in_ordinary_income` at the
`test_income_stacking` inputs: $50,000 of gains on $40,000 vs $600,000 of
MFJ ordinary income (taxes 0 and $10,000 respectively). -/
theorem C3_ltcg_monotone_witness :
    ltcgTax .mfj 50000 40000 ≤ ltcgTax .mfj 50000 600000
      ∧ ltcgTax .mfj 50000 40000 = 0
      ∧ ltcgTax .mfj 50000 600000 = 10000 := by
  refine ⟨C3_ltcg_monotone_in_ordinary_income .mfj 50000 40000 600000
    (by norm_num) (by norm_num), ?_, ?_⟩ <;>
    norm_num [ltcgTax, ltcgThresholds]

/-!
## Taxable portion of Social Security benefits

Modelled from the spec: `_vectorized_taxable_ss` (element-wise), the
two-threshold provisional-income rule.  Provisional income is
`other_income + 0.5 * ss_benefit`; below the first threshold ($32,000
MFJ) nothing is taxable; between the thresholds up to 50% of the benefit
is taxable, phased in at 50 cents per dollar of excess; above the second
threshold ($44,000 MFJ) the standard two-tier phase-in applies, capped
at 85% of the benefit.
-/

/-- Provisional-income thresholds per filing status. -/
def ssThresholds (fs : FilingStatus) : ℚ × ℚ :=
  match fs with
  | .mfj => (32000, 44000)
  | .single => (25000, 34000)

/-- Modelled from the spec: taxable Social Security for one path value. -/
def taxableSS (fs : FilingStatus) (otherIncome ssBenefit : ℚ) : ℚ :=
  let (t1, t2) := ssThresholds fs
  let prov := otherIncome + ssBenefit / 2
  if prov ≤ t1 then 0
  else if prov ≤ t2 then min ((prov - t1) / 2) (ssBenefit / 2)
  else min ((85/100) * ssBenefit)
    ((85/100) * (prov - t2) + min (ssBenefit / 2) ((t2 - t1) / 2))

/-- C5: for every non-negative benefit and every other-income value, the
taxable-Social-Security function returns 0 whenever provisional income
(`other_income + 0.5 * ss_benefit`) is below the first threshold, never
returns more than `0.85 * ss_benefit`, and is non-decreasing in
`other_income` for a fixed benefit, for every filing status. -/
theorem C5_taxable_ss_bounds_and_monotone
    (fs : FilingStatus) (ssBenefit : ℚ) (hss : 0 ≤ ssBenefit) :
    (∀ otherIncome : ℚ,
      otherIncome + ssBenefit / 2 < (ssThresholds fs).1 →
        taxableSS fs otherIncome ssBenefit = 0)
    ∧ (∀ otherIncome : ℚ,
        taxableSS fs otherIncome ssBenefit ≤ (85/100) * ssBenefit)
    ∧ (∀ oLow oHigh : ℚ, oLow ≤ oHigh →
        taxableSS fs oLow ssBenefit ≤ taxableSS fs oHigh ssBenefit) := by
  have key : ∀ t1 t2 : ℚ, t1 ≤ t2 → ssThresholds fs = (t1, t2) →
      (∀ otherIncome : ℚ,
        otherIncome + ssBenefit / 2 < (ssThresholds fs).1 →
          taxableSS fs otherIncome ssBenefit = 0)
      ∧ (∀ otherIncome : ℚ,
          taxableSS fs otherIncome ssBenefit ≤ (85/100) * ssBenefit)
      ∧ (∀ oLow oHigh : ℚ, oLow ≤ oHigh →
          taxableSS fs oLow ssBenefit ≤ taxableSS fs oHigh ssBenefit) := by
    intro t1 t2 ht heq
    refine ⟨fun o h => ?_, fun o => ?_, fun o1 o2 h12 => ?_⟩
    · simp only [taxableSS, heq] at h ⊢
      rw [if_pos (le_of_lt h)]
    · simp only [taxableSS, heq]
      split_ifs with h1 h2
      · linarith
      · refine le_trans (min_le_right _ _) (by linarith)
      · exact min_le_left _ _
    · simp only [taxableSS, heq]
      split_ifs with a1 a2 b1 b2 b3 b4
      · linarith
      · have : (0 : ℚ) ≤ (o2 + ssBenefit / 2 - t1) / 2 := by linarith
        exact le_min this (by linarith)
      · refine le_min (by linarith) ?_
        have : (0 : ℚ) ≤ min (ssBenefit / 2) ((t2 - t1) / 2) := by
          exact le_min (by linarith) (by linarith)
        linarith
      · linarith
      · exact min_le_min (by linarith) le_rfl
      · have hcap : min ((o1 + ssBenefit / 2 - t1) / 2) (ssBenefit / 2)
            ≤ (85/100) * ssBenefit :=
          le_trans (min_le_right _ _) (by linarith)
        have hmid : min ((o1 + ssBenefit / 2 - t1) / 2) (ssBenefit / 2)
            ≤ min (ssBenefit / 2) ((t2 - t1) / 2) :=
          le_min (min_le_right _ _)
            (le_trans (min_le_left _ _) (by linarith))
        refine le_min hcap ?_
        have hpos : (0 : ℚ) ≤ (85/100) * (o2 + ssBenefit / 2 - t2) := by
          linarith
        linarith
      · linarith
      · linarith
      · exact min_le_min le_rfl (by linarith)
  cases fs
  · exact key 32000 44000 (by norm_num) rfl
  · exact key 25000 34000 (by norm_num) rfl

/-- Closed-form witness for `C5_taxable_ss_bounds_and_monotone` at the
`TestSocialSecurityTaxation` inputs: a $20,000 benefit with $10,000 of
other MFJ income is fully non-taxable, and is capped at 85% at $100,000
of other income. -/
theorem C5_taxable_ss_witness :
    (0 : ℚ) ≤ 20000
      ∧ taxableSS .mfj 10000 20000 = 0
      ∧ taxableSS .mfj 100000 20000 ≤ (85/100) * 20000
      ∧ taxableSS .mfj 10000 20000 ≤ taxableSS .mfj 100000 20000 := by
  refine ⟨by norm_num,
    (C5_taxable_ss_bounds_and_monotone .mfj 20000 (by norm_num)).1 10000
      (by norm_num [ssThresholds]),
    (C5_taxable_ss_bounds_and_monotone .mfj 20000 (by norm_num)).2.1 100000,
    (C5_taxable_ss_bounds_and_monotone .mfj 20000 (by norm_num)).2.2 10000
      100000 (by norm_num)⟩

/-!
## IRMAA Medicare surcharges

Modelled from the spec: `_vectorized_irmaa` (element-wise).  Five MAGI
tiers map to fixed per-person annual Part B/D surcharge add-ons; below
the lowest threshold the surcharge is 0; when both spouses are on
Medicare the per-tier amount is doubled.  The MFJ tier-1 and tier-5
amounts ($839.40 and $5,030.40) and the MFJ tier boundaries at $206,000
are pinned by `TestIRMAASurcharges`; the intermediate per-person amounts
follow the same published table.
-/

/-- First (lowest) IRMAA MAGI threshold per filing status. -/
def irmaaFirstThreshold (fs : FilingStatus) : ℚ :=
  match fs with
  | .mfj => 206000
  | .single => 103000

/-- Per-person annual IRMAA surcharge for one MAGI value. -/
def irmaaPerPerson (fs : FilingStatus) (magi : ℚ) : ℚ :=
  let (u1, u2, u3, u4, u5) : ℚ × ℚ × ℚ × ℚ × ℚ :=
    match fs with
    | .mfj => (206000, 258000, 322000, 386000, 750000)
    | .single => (103000, 129000, 161000, 193000, 500000)
  if magi < u1 then 0
  else if magi < u2 then 8394/10
  else if magi < u3 then 20988/10
  else if magi < u4 then 33552/10
  else if magi < u5 then 46116/10
  else 50304/10

/-- Modelled from the spec: `_vectorized_irmaa`, doubling the per-person
amount when both spouses are enrolled in Medicare. -/
def irmaa (fs : FilingStatus) (magi : ℚ) (bothOnMedicare : Bool) : ℚ :=
  (if bothOnMedicare then 2 else 1) * irmaaPerPerson fs magi

/-- C6: the IRMAA surcharge is 0 for every MAGI below the lowest tier
threshold, and for every MAGI the surcharge with both spouses on
Medicare is exactly twice the single-enrollee surcharge; at a $230,000
MFJ MAGI (tier 1) the amounts are $839.40 and $1,678.80. -/
theorem C6_irmaa_zero_below_and_doubles
    (fs : FilingStatus) (magi : ℚ) :
    (magi < irmaaFirstThreshold fs → ∀ both : Bool, irmaa fs magi both = 0)
    ∧ irmaa fs magi true = 2 * irmaa fs magi false
    ∧ irmaa .mfj 230000 false = 8394/10
    ∧ irmaa .mfj 230000 true = 16788/10 := by
  refine ⟨fun h both => ?_, ?_, by norm_num [irmaa, irmaaPerPerson],
    by norm_num [irmaa, irmaaPerPerson]⟩
  · have hz : irmaaPerPerson fs magi = 0 := by
      cases fs <;>
        simp only [irmaaPerPerson, irmaaFirstThreshold] at h ⊢ <;>
        rw [if_pos h]
    simp [irmaa, hz]
  · cases fs <;> norm_num [irmaa]

/-- Closed-form witness for `C6_irmaa_zero_below_and_doubles` at the
`test_no_surcharge_low_income` MAGI of $150,000 MFJ. -/
theorem C6_irmaa_witness :
    irmaa .mfj 150000 true = 0
      ∧ irmaa .mfj 150000 true = 2 * irmaa .mfj 150000 false := by
  exact ⟨(C6_irmaa_zero_below_and_doubles .mfj 150000).1
      (by norm_num [irmaaFirstThreshold]) true,
    (C6_irmaa_zero_below_and_doubles .mfj 150000).2.1⟩

/-!
## Required minimum distributions

Modelled from the spec: `calculate_rmd(age, balance)` returns 0 below
the RMD start age (73), and otherwise computes each spouse's RMD from
the **undiminished original balance** — `(balance / 2) / divisor(age)`
per spouse — so the combined RMD is `balance / divisor(age)`.  The
divisor table is the standard age → distribution-period mapping (age 76
→ 23.7), clamped at the table's maximum age entry.
-/

/-- Uniform Lifetime Table distribution period, clamped at the top age. -/
def rmdDivisor (age : ℕ) : ℚ :=
  if age ≤ 73 then 265/10
  else if age = 74 then 255/10
  else if age = 75 then 246/10
  else if age = 76 then 237/10
  else if age = 77 then 229/10
  else if age = 78 then 220/10
  else if age = 79 then 211/10
  else if age = 80 then 202/10
  else if age = 81 then 194/10
  else if age = 82 then 185/10
  else if age = 83 then 177/10
  else if age = 84 then 168/10
  else if age = 85 then 160/10
  else if age = 86 then 152/10
  else if age = 87 then 144/10
  else if age = 88 then 137/10
  else if age = 89 then 129/10
  else if age = 90 then 122/10
  else if age = 91 then 115/10
  else if age = 92 then 108/10
  else if age = 93 then 101/10
  else if age = 94 then 95/10
  else if age = 95 then 89/10
  else if age = 96 then 84/10
  else if age = 97 then 78/10
  else if age = 98 then 73/10
  else if age = 99 then 68/10
  else 64/10

/-- One spouse's RMD share, always taken from the undiminished original
combined traditional balance (never from a pool already reduced by the
other spouse's RMD). -/
def spouseRMDShare (age : ℕ) (originalBalance : ℚ) : ℚ :=
  if age < 73 then 0 else (originalBalance / 2) / rmdDivisor age

/-- Modelled from the spec: `calculate_rmd` sums the two spouses' shares,
each computed from the same original balance. -/
def calculate_rmd (age : ℕ) (balance : ℚ) : ℚ :=
  spouseRMDShare age balance + spouseRMDShare age balance

/-- C1: for two same-age spouses sharing one combined traditional
balance, each spouse's RMD share is half the original balance over the
age's divisor — the second share is computed from the undiminished
original balance, not from a pool reduced by the first share — so the
combined RMD is `balance / divisor(age)`; in particular
`calculate_rmd 76 1000000` is `1000000 / 23.7`, which rounds to 42,194. -/
theorem C1_rmd_from_undiminished_balance :
    (∀ (age : ℕ) (balance : ℚ), 73 ≤ age →
      spouseRMDShare age balance = (balance / 2) / rmdDivisor age
        ∧ calculate_rmd age balance = balance / rmdDivisor age)
    ∧ calculate_rmd 76 1000000 = 10000000 / 237
    ∧ round (calculate_rmd 76 1000000) = 42194 := by
  have hshare : ∀ (age : ℕ) (balance : ℚ), 73 ≤ age →
      spouseRMDShare age balance = (balance / 2) / rmdDivisor age := by
    intro age balance h
    rw [spouseRMDShare, if_neg (by omega)]
  have h76 : calculate_rmd 76 1000000 = 10000000 / 237 := by
    rw [calculate_rmd, hshare 76 1000000 (by norm_num)]
    norm_num [rmdDivisor]
  refine ⟨fun age balance h => ⟨hshare age balance h, ?_⟩, h76, ?_⟩
  · rw [calculate_rmd, hshare age balance h, div_add_div_same]
    congr 1
    ring
  · rw [h76, round_eq, Int.floor_eq_iff]
    norm_num

/-- Closed-form witness for `C1_rmd_from_undiminished_balance` at age 76
with a $1,000,000 combined traditional balance. -/
theorem C1_rmd_witness :
    spouseRMDShare 76 1000000 = (1000000 / 2) / rmdDivisor 76
      ∧ calculate_rmd 76 1000000 = 1000000 / rmdDivisor 76 :=
  (C1_rmd_from_undiminished_balance.1 76 1000000 (by norm_num))

/-!
## Withdrawal ordering

Modelled from the spec: when income does not cover required spending,
`monte_carlo_simulation` withdraws in a fixed priority order — taxable
first (realizing proportional capital gains against tracked cost basis),
then tax-deferred (fully taxable as ordinary income), then Roth last
(tax-free) — until spending is met or all accounts are exhausted.  The
per-path balances are the ephemeral simulation-path state of §3 of the
spec.
-/

/-- Per-path account balances: taxable bucket with its remaining cost
basis, tax-deferred bucket, and Roth bucket. -/
structure AccountState where
  taxable : ℚ
  taxableBasis : ℚ
  deferred : ℚ
  roth : ℚ
deriving DecidableEq, Repr

/-- Amounts taken from each bucket in one withdrawal pass, with the
capital gains realized on the taxable portion. -/
structure Withdrawal where
  fromTaxable : ℚ
  fromDeferred : ℚ
  fromRoth : ℚ
  gainsRealized : ℚ
deriving DecidableEq, Repr

/-- Modelled from the spec: one ordered withdrawal pass covering `need`
dollars — taxable first, then tax-deferred, then Roth — realizing
proportional gains against the tracked cost basis of the taxable
bucket. -/
def withdrawOrdered (need : ℚ) (s : AccountState) : Withdrawal × AccountState :=
  let wTax := min need s.taxable
  let gains := if 0 < s.taxable
    then wTax * (s.taxable - s.taxableBasis) / s.taxable else 0
  let basisUsed := if 0 < s.taxable
    then wTax * s.taxableBasis / s.taxable else 0
  let need1 := need - wTax
  let wDef := min need1 s.deferred
  let need2 := need1 - wDef
  let wRoth := min need2 s.roth
  ({ fromTaxable := wTax, fromDeferred := wDef, fromRoth := wRoth,
     gainsRealized := gains },
   { taxable := s.taxable - wTax, taxableBasis := s.taxableBasis - basisUsed,
     deferred := s.deferred - wDef, roth := s.roth - wRoth })

/-- C2: in every simulated year, a shortfall is withdrawn in the fixed
priority order taxable → tax-deferred → Roth: a tax-deferred dollar is
taken only once the taxable balance is exhausted, a Roth dollar only
once both taxable and tax-deferred balances are exhausted, and the
taxable portion realizes gains proportionally against the tracked cost
basis.  (`pathYear`, the per-year step of `mcSimulation`, performs every
withdrawal through `withdrawOrdered`.) -/
theorem C2_withdrawal_priority_order
    (need : ℚ) (s : AccountState) (hneed : 0 ≤ need)
    (htax : 0 ≤ s.taxable) (hdef : 0 ≤ s.deferred) (hroth : 0 ≤ s.roth) :
    (0 < (withdrawOrdered need s).1.fromDeferred →
      (withdrawOrdered need s).2.taxable = 0)
    ∧ (0 < (withdrawOrdered need s).1.fromRoth →
      (withdrawOrdered need s).2.taxable = 0
        ∧ (withdrawOrdered need s).2.deferred = 0)
    ∧ (0 < s.taxable →
      (withdrawOrdered need s).1.gainsRealized =
        (withdrawOrdered need s).1.fromTaxable
          * (s.taxable - s.taxableBasis) / s.taxable) := by
  simp only [withdrawOrdered]
  refine ⟨fun hd => ?_, fun hr => ?_, fun ht => ?_⟩
  · rcases le_total need s.taxable with h | h
    · rw [min_eq_left h] at hd
      rw [min_eq_left h]
      have : min (need - need) s.deferred = 0 := by
        rw [sub_self, min_eq_left hdef]
      rw [this] at hd
      exact absurd hd (lt_irrefl 0)
    · rw [min_eq_right h]
      ring
  · rcases le_total need s.taxable with h | h
    · rw [min_eq_left h, sub_self, min_eq_left hdef, sub_zero,
        min_eq_left hroth] at hr
      exact absurd hr (lt_irrefl 0)
    · rw [min_eq_right h] at hr ⊢
      rcases le_total (need - s.taxable) s.deferred with h2 | h2
      · rw [min_eq_left h2, sub_self, min_eq_left hroth] at hr
        exact absurd hr (lt_irrefl 0)
      · rw [min_eq_right h2]
        exact ⟨by ring, by ring⟩
  · rw [if_pos ht]

/-- Closed-form witness for `C2_withdrawal_priority_order`: a $100,000
need against $30,000 taxable (basis $20,000), $50,000 deferred and
$40,000 Roth drains taxable and deferred before touching Roth. -/
theorem C2_withdrawal_priority_witness :
    (0 < (withdrawOrdered 100000
        ⟨30000, 20000, 50000, 40000⟩).1.fromDeferred →
      (withdrawOrdered 100000 ⟨30000, 20000, 50000, 40000⟩).2.taxable = 0)
    ∧ (0 < (withdrawOrdered 100000
        ⟨30000, 20000, 50000, 40000⟩).1.fromRoth →
      (withdrawOrdered 100000 ⟨30000, 20000, 50000, 40000⟩).2.taxable = 0
        ∧ (withdrawOrdered 100000
            ⟨30000, 20000, 50000, 40000⟩).2.deferred = 0)
    ∧ (0 < (30000 : ℚ) →
      (withdrawOrdered 100000
          ⟨30000, 20000, 50000, 40000⟩).1.gainsRealized =
        (withdrawOrdered 100000 ⟨30000, 20000, 50000, 40000⟩).1.fromTaxable
          * (30000 - 20000) / 30000) :=
  C2_withdrawal_priority_order 100000 ⟨30000, 20000, 50000, 40000⟩
    (by norm_num) (by norm_num) (by norm_num) (by norm_num)

/-!
## Monte Carlo simulation

Modelled from the spec: `monte_carlo_simulation(years, simulations, ...)`
runs `simulations` independent paths; each year of each path draws a
market return from a seeded PRNG, computes income, covers spending
through `withdrawOrdered`, applies mandatory RMDs, computes the year's
taxes with the vectorized tax functions, and grows the remaining
balances; the result records the success rate, the starting portfolio,
percentile bands of the final balances and a per-year timeline.  The
model works in real (inflation-adjusted) dollars, so the `constant_real`
spending model is a constant yearly spending amount; the numpy normal
draws are modelled by a seeded linear congruential generator (the spec
requires only that the simulation be a deterministic function of the
seed).  Zero simulations is invalid and raises; the engine assumes
well-formed numeric inputs otherwise.
-/

/-- Linear congruential PRNG step: the seeded source of market draws. -/
def lcg (s : ℕ) : ℕ := (1103515245 * s + 12345) % 2147483648

/-- A market return in [-20%, +20%] drawn from a PRNG state. -/
def drawReturn (s : ℕ) : ℚ := ((s % 401 : ℕ) : ℚ) / 1000 - 1/5

/-- Grow all balances by the year's drawn return (basis unchanged). -/
def grow (r : ℚ) (s : AccountState) : AccountState :=
  { taxable := s.taxable * (1 + r), taxableBasis := s.taxableBasis,
    deferred := s.deferred * (1 + r), roth := s.roth * (1 + r) }

/-- Total portfolio value across the three buckets. -/
def totalBalance (s : AccountState) : ℚ := s.taxable + s.deferred + s.roth

/-- The read-only per-simulation inputs: filing status, guaranteed
income components, required spending, starting age and balances. -/
structure SimProfile where
  fs : FilingStatus
  wage : ℚ
  ssBenefit : ℚ
  pension : ℚ
  spending : ℚ
  startAge : ℕ
  initial : AccountState
deriving DecidableEq, Repr

/-- Modelled from the spec: one simulated year of one path — income,
ordered withdrawals for the shortfall, mandatory RMD, taxes through the
vectorized tax functions, then growth by the drawn return.  A path is
marked depleted once a shortfall cannot be covered. -/
def pathYear (p : SimProfile) (age : ℕ) (r : ℚ)
    (st : AccountState) (depleted : Bool) : AccountState × Bool :=
  let income := p.wage + p.ssBenefit + p.pension
  let shortfall := max 0 (p.spending - income)
  let (w, s1) := withdrawOrdered shortfall st
  let covered := w.fromTaxable + w.fromDeferred + w.fromRoth
  let newDepleted := depleted || decide (covered < shortfall)
  let rmdTotal := calculate_rmd age st.deferred
  let extraRMD := min (max 0 (rmdTotal - w.fromDeferred)) s1.deferred
  let s2 : AccountState :=
    { s1 with deferred := s1.deferred - extraRMD,
              taxable := s1.taxable + extraRMD,
              taxableBasis := s1.taxableBasis + extraRMD }
  let otherIncome := p.wage + p.pension + w.fromDeferred + extraRMD
  let ordinary := otherIncome + taxableSS p.fs otherIncome p.ssBenefit
  let magi := ordinary + w.gainsRealized
  let tax := (federalTax p.fs ordinary).1
    + ltcgTax p.fs w.gainsRealized ordinary
    + (if 65 ≤ age then irmaa p.fs magi true else 0)
  let (_, s3) := withdrawOrdered tax s2
  (grow r s3, newDepleted)

/-- One full simulated path: fold `pathYear` over the years, threading
the PRNG state; returns the final balance and the depletion flag. -/
def runPath (p : SimProfile) (seed : ℕ) (years : ℕ) : ℚ × Bool :=
  let finalAcc := (List.range years).foldl
    (fun acc y =>
      let rng := lcg acc.1
      let step := pathYear p (p.startAge + y) (drawReturn rng) acc.2.1 acc.2.2
      (rng, step.1, step.2))
    (seed, p.initial, false)
  (totalBalance finalAcc.2.1, finalAcc.2.2)

/-- Insert a value into an ascending list, keeping it ascending. -/
def insertSorted (x : ℚ) : List ℚ → List ℚ
  | [] => [x]
  | y :: ys => if x ≤ y then x :: y :: ys else y :: insertSorted x ys

/-- Ascending insertion sort, used to read off percentile bands. -/
def sortAsc : List ℚ → List ℚ
  | [] => []
  | x :: xs => insertSorted x (sortAsc xs)

/-- The `k`-th percentile of a list of final balances. -/
def percentileOf (finals : List ℚ) (k : ℕ) : ℚ :=
  let sorted := sortAsc finals
  sorted.getD (min (sorted.length - 1) (k * finals.length / 100)) 0

/-- The result record of a Monte Carlo run. -/
structure MCResult where
  success_rate : ℚ
  starting_portfolio : ℚ
  median_final_balance : ℚ
  percentile10 : ℚ
  percentile90 : ℚ
  timeline_years : List ℕ
deriving DecidableEq, Repr

/-- Modelled from the spec: `monte_carlo_simulation` — runs the given
number of independent seeded paths and summarizes success rate and
percentile bands; raises on a zero simulation count. -/
def monte_carlo_simulation (seed : ℕ) (p : SimProfile)
    (years simulations : ℕ) : Except String MCResult :=
  if simulations = 0 then
    .error "simulations must be positive"
  else
    let paths := (List.range simulations).map
      (fun i => runPath p (lcg (seed + i)) years)
    let finals := paths.map Prod.fst
    let successes := paths.countP (fun path => !path.2)
    .ok { success_rate := (successes : ℚ) / (simulations : ℚ),
          starting_portfolio := totalBalance p.initial,
          median_final_balance := percentileOf finals 50,
          percentile10 := percentileOf finals 10,
          percentile90 := percentileOf finals 90,
          timeline_years := List.range years }

/-- Mapping a function that is constant on a list yields a replicate. -/
lemma map_eq_replicate {α β : Type} (l : List α) (f : α → β) (c : β)
    (h : ∀ a ∈ l, f a = c) : l.map f = List.replicate l.length c := by
  induction l with
  | nil => rfl
  | cons x xs ih =>
    simp only [List.map_cons, List.length_cons, List.replicate_succ]
    exact congrArg₂ _ (h x (by simp)) (ih fun a ha => h a (by simp [ha]))

/-- `countP` over a replicate counts everything or nothing. -/
lemma countP_replicate {α : Type} (p : α → Bool) (n : ℕ) (a : α) :
    (List.replicate n a).countP p = if p a then n else 0 := by
  induction n with
  | zero => simp
  | succ n ih =>
    simp only [List.replicate_succ, List.countP_cons, ih]
    split_ifs <;> simp_all

/-- Inserting the repeated value into a constant list keeps it constant. -/
lemma insertSorted_replicate (n : ℕ) (a : ℚ) :
    insertSorted a (List.replicate n a) = List.replicate (n + 1) a := by
  cases n with
  | zero => rfl
  | succ n =>
    simp [List.replicate_succ, insertSorted]

/-- Sorting a constant list is the identity. -/
lemma sortAsc_replicate (n : ℕ) (a : ℚ) :
    sortAsc (List.replicate n a) = List.replicate n a := by
  induction n with
  | zero => rfl
  | succ n ih =>
    simp only [List.replicate_succ, sortAsc, ih]
    exact insertSorted_replicate n a

/-- In-range indexing into a replicate returns the repeated value. -/
lemma getD_replicate (n i : ℕ) (a d : ℚ) (h : i < n) :
    (List.replicate n a).getD i d = a := by
  induction n generalizing i with
  | zero => omega
  | succ n ih =>
    cases i with
    | zero => rfl
    | succ i => simpa [List.replicate_succ] using ih i (by omega)

/-- Every percentile of a nonempty constant list is the repeated value. -/
lemma percentileOf_replicate (n k : ℕ) (a : ℚ) (hn : n ≠ 0) :
    percentileOf (List.replicate n a) k = a := by
  unfold percentileOf
  rw [sortAsc_replicate]
  refine getD_replicate n _ a 0 ?_
  have hlen : (List.replicate n a).length = n := List.length_replicate n a
  rw [hlen]
  have : min (n - 1) (k * n / 100) ≤ n - 1 := min_le_left _ _
  omega

/-- C7: `monte_carlo_simulation` is deterministic under a fixed random
seed: two runs with the same seed and identical profile, years and
simulation count return identical results — in particular identical
success rates and percentile arrays.  In the embedding the simulation
consumes randomness only through the PRNG stream spawned from the seed,
so the result is a pure function of (seed, inputs). -/
theorem C7_monte_carlo_deterministic_under_seed
    (seed1 seed2 : ℕ) (p : SimProfile) (years simulations : ℕ)
    (h : seed1 = seed2) :
    monte_carlo_simulation seed1 p years simulations
      = monte_carlo_simulation seed2 p years simulations := by
  rw [h]

/-- Closed-form witness for `C7_monte_carlo_deterministic_under_seed`:
two runs seeded with 42 on the `_create_basic_model`-like profile
coincide. -/
theorem C7_monte_carlo_deterministic_witness :
    monte_carlo_simulation 42
        ⟨.mfj, 0, 45600, 0, 60000, 65, ⟨50000, 50000, 500000, 100000⟩⟩ 20 100
      = monte_carlo_simulation 42
        ⟨.mfj, 0, 45600, 0, 60000, 65, ⟨50000, 50000, 500000, 100000⟩⟩ 20 100 :=
  C7_monte_carlo_deterministic_under_seed 42 42
    ⟨.mfj, 0, 45600, 0, 60000, 65, ⟨50000, 50000, 500000, 100000⟩⟩ 20 100 rfl

/-- C8: `monte_carlo_simulation` with `years = 0` returns the trivial
always-succeeds result — success rate 1 and median final balance equal
to the starting portfolio — for every seed, profile and positive
simulation count, while a zero simulation count is invalid and raises
instead of producing a result. -/
theorem C8_zero_years_trivial_and_zero_sims_raises :
    (∀ (seed : ℕ) (p : SimProfile) (simulations : ℕ), simulations ≠ 0 →
      (monte_carlo_simulation seed p 0 simulations).map
          MCResult.success_rate = .ok 1
        ∧ (monte_carlo_simulation seed p 0 simulations).map
            MCResult.median_final_balance = .ok (totalBalance p.initial)
        ∧ (monte_carlo_simulation seed p 0 simulations).map
            MCResult.starting_portfolio = .ok (totalBalance p.initial))
    ∧ (∀ (seed : ℕ) (p : SimProfile) (years : ℕ),
        monte_carlo_simulation seed p years 0
          = .error "simulations must be positive") := by
  constructor
  · intro seed p simulations hsim
    have hpath : ∀ i : ℕ, runPath p (lcg (seed + i)) 0
        = (totalBalance p.initial, false) := fun i => rfl
    have hmap : (List.range simulations).map
        (fun i => runPath p (lcg (seed + i)) 0)
        = List.replicate simulations (totalBalance p.initial, false) := by
      have := map_eq_replicate (List.range simulations)
        (fun i => runPath p (lcg (seed + i)) 0)
        (totalBalance p.initial, false) (fun a _ => hpath a)
      rwa [List.length_range] at this
    have hone : (simulations : ℚ) ≠ 0 := Nat.cast_ne_zero.mpr hsim
    have hok : monte_carlo_simulation seed p 0 simulations
        = .ok { success_rate := 1,
                starting_portfolio := totalBalance p.initial,
                median_final_balance := totalBalance p.initial,
                percentile10 := totalBalance p.initial,
                percentile90 := totalBalance p.initial,
                timeline_years := [] } := by
      simp only [monte_carlo_simulation, hmap]
      rw [if_neg hsim]
      simp only [List.map_replicate, countP_replicate, Bool.not_false,
        if_true, Except.ok.injEq, MCResult.mk.injEq, List.range_zero]
      exact ⟨div_self hone, trivial,
        percentileOf_replicate simulations 50 _ hsim,
        percentileOf_replicate simulations 10 _ hsim,
        percentileOf_replicate simulations 90 _ hsim, trivial⟩
    rw [hok]
    exact ⟨rfl, rfl, rfl⟩
  · intro seed p years
    rw [monte_carlo_simulation, if_pos rfl]

/-- Closed-form witness for `C8_zero_years_trivial_and_zero_sims_raises`
at seed 7, a concrete profile, 5 simulations (and 3 years for the
zero-simulations half). -/
theorem C8_zero_years_witness :
    ((monte_carlo_simulation 7
          ⟨.mfj, 0, 0, 0, 70000, 65, ⟨50000, 50000, 500000, 100000⟩⟩ 0 5).map
        MCResult.success_rate = .ok 1
      ∧ (monte_carlo_simulation 7
          ⟨.mfj, 0, 0, 0, 70000, 65, ⟨50000, 50000, 500000, 100000⟩⟩ 0 5).map
          MCResult.median_final_balance
        = .ok (totalBalance ⟨50000, 50000, 500000, 100000⟩)
      ∧ (monte_carlo_simulation 7
          ⟨.mfj, 0, 0, 0, 70000, 65, ⟨50000, 50000, 500000, 100000⟩⟩ 0 5).map
          MCResult.starting_portfolio
        = .ok (totalBalance ⟨50000, 50000, 500000, 100000⟩))
    ∧ monte_carlo_simulation 7
        ⟨.mfj, 0, 0, 0, 70000, 65, ⟨50000, 50000, 500000, 100000⟩⟩ 3 0
      = .error "simulations must be positive" :=
  ⟨C8_zero_years_trivial_and_zero_sims_raises.1 7
      ⟨.mfj, 0, 0, 0, 70000, 65, ⟨50000, 50000, 500000, 100000⟩⟩ 5
      (by norm_num),
    C8_zero_years_trivial_and_zero_sims_raises.2 7
      ⟨.mfj, 0, 0, 0, 70000, 65, ⟨50000, 50000, 500000, 100000⟩⟩ 3⟩

/-!
## Analysis request validation (`src/routes/analysis.py`)

`AnalysisRequestSchema.validate_simulations` raises a `ValueError` when
the requested simulation count is below 100 or above 50,000; the route
handler catches the resulting `ValidationError` — raised while parsing
the request, before any profile lookup or simulation — and returns a
400 response with a sanitized message.
-/

/-- Embedding of `AnalysisRequestSchema.validate_simulations`: reject a
count below 100 or above 50,000, accept everything in between. -/
def validate_simulations (v : ℤ) : Except String ℤ :=
  if v < 100 ∨ v > 50000 then
    .error "Simulations must be between 100 and 50,000"
  else
    .ok v

/-- Embedding of the validation phase of the `/api/analysis` route: a
schema validation failure is surfaced as a 400 response before any
simulation work; a valid request proceeds (status 200 path). -/
def runAnalysisStatus (v : ℤ) : ℕ :=
  match validate_simulations v with
  | .error _ => 400
  | .ok _ => 200

/-- C9: a requested simulation count below 100 or above 50,000 is
rejected by `validate_simulations` and surfaced as a 400 validation
error before any simulation runs, while every count in the inclusive
range 100–50,000 passes validation. -/
theorem C9_simulations_range_validation :
    (∀ v : ℤ, v < 100 ∨ v > 50000 →
      validate_simulations v
          = .error "Simulations must be between 100 and 50,000"
        ∧ runAnalysisStatus v = 400)
    ∧ (∀ v : ℤ, 100 ≤ v → v ≤ 50000 →
      validate_simulations v = .ok v ∧ runAnalysisStatus v = 200) := by
  constructor
  · intro v h
    have hval : validate_simulations v
        = .error "Simulations must be between 100 and 50,000" := by
      rw [validate_simulations, if_pos h]
    exact ⟨hval, by rw [runAnalysisStatus, hval]⟩
  · intro v h1 h2
    have hval : validate_simulations v = .ok v := by
      rw [validate_simulations, if_neg]
      push_neg
      omega
    exact ⟨hval, by rw [runAnalysisStatus, hval]⟩

/-- Closed-form witness for `C9_simulations_range_validation` at the
out-of-range counts 99 and 50,001 and the in-range count 10,000 (the
schema default). -/
theorem C9_simulations_range_witness :
    (validate_simulations 99
        = .error "Simulations must be between 100 and 50,000"
      ∧ runAnalysisStatus 99 = 400)
    ∧ (validate_simulations 50001
        = .error "Simulations must be between 100 and 50,000"
      ∧ runAnalysisStatus 50001 = 400)
    ∧ (validate_simulations 10000 = .ok 10000
      ∧ runAnalysisStatus 10000 = 200) :=
  ⟨C9_simulations_range_validation.1 99 (Or.inl (by norm_num)),
    C9_simulations_range_validation.1 50001 (Or.inr (by norm_num)),
    C9_simulations_range_validation.2 10000 (by norm_num) (by norm_num)⟩

/-!
## Asset transformation (`transform_assets_to_investment_types`)

`src/routes/analysis.py` transforms the frontend asset structure into
the `investment_types` records consumed by the retirement model.  Each
raw asset carries optional `type`, `value`, `cost_basis` and `name`
fields; `value` defaults to 0; `cost_basis` defaults to the (defaulted)
value; the lower-cased type is looked up in `ACCOUNT_MAPPING`, with
category-specific fallbacks: unrecognized retirement types become
`'Traditional IRA'`, unrecognized taxable types `'Taxable Brokerage'`,
and among other assets `'hsa'` becomes `'Roth IRA'` while everything
else becomes `'Taxable Brokerage'`.
-/

/-- A raw frontend asset record with its optional fields. -/
structure RawAsset where
  assetType : Option String
  value : Option ℚ
  cost_basis : Option ℚ
  name : Option String
deriving DecidableEq, Repr

/-- Embedding of `ACCOUNT_MAPPING`: frontend type → backend account. -/
def ACCOUNT_MAPPING (t : String) : Option String :=
  if t = "401k" then some "401k"
  else if t = "roth_401k" then some "Roth IRA"
  else if t = "traditional_ira" then some "Traditional IRA"
  else if t = "roth_ira" then some "Roth IRA"
  else if t = "sep_ira" then some "Traditional IRA"
  else if t = "simple_ira" then some "Traditional IRA"
  else if t = "403b" then some "403b"
  else if t = "457" then some "457b"
  else if t = "brokerage" then some "Taxable Brokerage"
  else if t = "savings" then some "Savings"
  else if t = "checking" then some "Checking"
  else if t = "money_market" then some "Savings"
  else if t = "cd" then some "Savings"
  else if t = "cash" then some "Checking"
  else none

/-- ASCII lower-casing of one character (the asset type tags are pure
ASCII, so Python's `str.lower()` coincides with ASCII lowering). -/
def asciiLowerChar (c : Char) : Char :=
  if 65 ≤ c.toNat ∧ c.toNat ≤ 90 then Char.ofNat (c.toNat + 32) else c

/-- ASCII lower-casing of a string. -/
def asciiLower (s : String) : String := ⟨s.data.map asciiLowerChar⟩

/-- `asset.get("type", "").lower()`. -/
def lowerType (a : RawAsset) : String := asciiLower (a.assetType.getD "")

/-- An `investment_types` record produced by the transformation. -/
structure InvestmentEntry where
  account : String
  value : ℚ
  cost_basis : ℚ
  name : String
deriving DecidableEq, Repr

/-- `asset.get("value", 0)`. -/
def entryValue (a : RawAsset) : ℚ := a.value.getD 0

/-- `asset.get("cost_basis", asset.get("value", 0))`. -/
def entryBasis (a : RawAsset) : ℚ := a.cost_basis.getD (a.value.getD 0)

/-- Transformation of one entry of `assets.retirement_accounts`. -/
def processRetirementAsset (a : RawAsset) : InvestmentEntry :=
  { account := (ACCOUNT_MAPPING (lowerType a)).getD "Traditional IRA",
    value := entryValue a, cost_basis := entryBasis a,
    name := a.name.getD "" }

/-- Transformation of one entry of `assets.taxable_accounts`. -/
def processTaxableAsset (a : RawAsset) : InvestmentEntry :=
  { account := (ACCOUNT_MAPPING (lowerType a)).getD "Taxable Brokerage",
    value := entryValue a, cost_basis := entryBasis a,
    name := a.name.getD "" }

/-- Transformation of one entry of `assets.other_assets` (HSA becomes
Roth — tax-free on withdrawal — and everything else taxable). -/
def processOtherAsset (a : RawAsset) : InvestmentEntry :=
  { account :=
      if lowerType a = "hsa" then "Roth IRA"
      else if lowerType a = "cryptocurrency" ∨ lowerType a = "collectible"
          ∨ lowerType a = "business_interest" then "Taxable Brokerage"
      else "Taxable Brokerage",
    value := entryValue a, cost_basis := entryBasis a,
    name := a.name.getD "" }

/-- Embedding of `transform_assets_to_investment_types`: the three asset
categories are transformed entry by entry and concatenated. -/
def transform_assets_to_investment_types
    (retirement taxable other : List RawAsset) : List InvestmentEntry :=
  retirement.map processRetirementAsset
    ++ taxable.map processTaxableAsset
    ++ other.map processOtherAsset

/-- C10: for every asset record processed by
`transform_assets_to_investment_types`, a missing `cost_basis` defaults
to the asset's (defaulted) value — zero unrealized gain — a missing
`value` defaults to 0, an unrecognized retirement type maps to
`'Traditional IRA'`, an unrecognized taxable or other-asset type maps to
`'Taxable Brokerage'`, and an HSA maps to `'Roth IRA'`. -/
theorem C10_asset_transform_defaults :
    (∀ a : RawAsset, a.cost_basis = none →
      (processRetirementAsset a).cost_basis = (processRetirementAsset a).value
        ∧ (processTaxableAsset a).cost_basis = (processTaxableAsset a).value
        ∧ (processOtherAsset a).cost_basis = (processOtherAsset a).value)
    ∧ (∀ a : RawAsset, a.value = none →
      (processRetirementAsset a).value = 0
        ∧ (processTaxableAsset a).value = 0
        ∧ (processOtherAsset a).value = 0)
    ∧ (∀ a : RawAsset, ACCOUNT_MAPPING (lowerType a) = none →
      (processRetirementAsset a).account = "Traditional IRA")
    ∧ (∀ a : RawAsset, ACCOUNT_MAPPING (lowerType a) = none →
      (processTaxableAsset a).account = "Taxable Brokerage")
    ∧ (∀ a : RawAsset, lowerType a ≠ "hsa" →
      (processOtherAsset a).account = "Taxable Brokerage")
    ∧ (∀ a : RawAsset, lowerType a = "hsa" →
      (processOtherAsset a).account = "Roth IRA")
    ∧ (∀ retirement taxable other : List RawAsset,
      transform_assets_to_investment_types retirement taxable other
        = retirement.map processRetirementAsset
          ++ taxable.map processTaxableAsset
          ++ other.map processOtherAsset) := by
  refine ⟨fun a h => ?_, fun a h => ?_, fun a h => ?_, fun a h => ?_,
    fun a h => ?_, fun a h => ?_, fun _ _ _ => rfl⟩
  · simp [processRetirementAsset, processTaxableAsset, processOtherAsset,
      entryBasis, entryValue, h]
  · simp [processRetirementAsset, processTaxableAsset, processOtherAsset,
      entryValue, h]
  · simp [processRetirementAsset, h]
  · simp [processTaxableAsset, h]
  · simp only [processOtherAsset, if_neg h]
    split_ifs <;> rfl
  · simp [processOtherAsset, h]

/-- Closed-form witness for `C10_asset_transform_defaults` at concrete
assets: a `pension_annuity` retirement account with no cost basis, an
`i_bond` taxable account with no value, and an `hsa` other asset. -/
theorem C10_asset_transform_witness :
    ((processRetirementAsset
        ⟨some "pension_annuity", some 5000, none, none⟩).cost_basis
      = (processRetirementAsset
        ⟨some "pension_annuity", some 5000, none, none⟩).value)
    ∧ (processRetirementAsset
        ⟨some "pension_annuity", some 5000, none, none⟩).account
      = "Traditional IRA"
    ∧ (processTaxableAsset ⟨some "i_bond", none, some 100, none⟩).value = 0
    ∧ (processTaxableAsset ⟨some "i_bond", none, some 100, none⟩).account
      = "Taxable Brokerage"
    ∧ (processOtherAsset ⟨some "HSA", some 9000, some 9000, none⟩).account
      = "Roth IRA" :=
  ⟨(C10_asset_transform_defaults.1
      ⟨some "pension_annuity", some 5000, none, none⟩ rfl).1,
    C10_asset_transform_defaults.2.2.1
      ⟨some "pension_annuity", some 5000, none, none⟩ (by decide),
    (C10_asset_transform_defaults.2.1
      ⟨some "i_bond", none, some 100, none⟩ rfl).2.1,
    C10_asset_transform_defaults.2.2.2.1
      ⟨some "i_bond", none, some 100, none⟩ (by decide),
    C10_asset_transform_defaults.2.2.2.2.2.1
      ⟨some "HSA", some 9000, some 9000, none⟩ (by decide)⟩
